import Mathlib

/-!
Shallow embedding of the SmartPop popup engine and its event-tracking API.

Backend side (routes/api.track-event + models/popup.server.ts):
JSON request fields, `validateEventData`, `checkRateLimit`, `getClientIP`,
`trackPopupEvent` and the route `action`, modelled as pure state-passing
functions over an explicit database and rate-limit store.

Browser side (public/popup-script.js):
`isShopifyAdmin`, `initSmartPop` (which triggers get armed), the session
store (`hasPopupBeenShown` / `markPopupAsShown`), the popup renderer
lifecycle (show / submit / close / auto-dismiss) and the delay and scroll
trigger handlers, modelled as explicit step functions over small state
records driven by event traces.
-/

namespace SmartPop

/-! ### JSON-ish values

Request bodies arrive via `JSON.parse`; a field is absent (`Option.none`),
`null`, a string, a number or a boolean.  JavaScript truthiness and
`typeof x === 'string'` are modelled explicitly. -/

inductive JValue where
  | null : JValue
  | str (s : String) : JValue
  | num (n : Int) : JValue
  | bool (b : Bool) : JValue
deriving DecidableEq

/-- JavaScript truthiness of an (optional) field value: `undefined`, `null`,
`""`, `0` and `false` are falsy. -/
def JValue.truthy : Option JValue → Bool
  | none => false
  | some JValue.null => false
  | some (JValue.str s) => !(s = "")
  | some (JValue.num n) => !(n = 0)
  | some (JValue.bool b) => b

/-- `typeof x === 'string'` on an (optional) field value. -/
def isStringV : Option JValue → Bool
  | some (JValue.str _) => true
  | _ => false

/-- The string payload of a field value (defaulting to `""`); only meaningful
under `isStringV`. -/
def strValOf : Option JValue → String
  | some (JValue.str s) => s
  | _ => ""

/-- JavaScript `x?.toString()`: optional chaining yields `undefined` on
`undefined`/`null`, otherwise the usual string conversion. -/
def jsOptToString : Option JValue → Option String
  | none => none
  | some JValue.null => none
  | some (JValue.str s) => some s
  | some (JValue.num n) => some (toString n)
  | some (JValue.bool b) => some (if b then "true" else "false")

/-- `String.prototype.trim`, computed over the character list. -/
def jsTrim (s : String) : String :=
  String.mk (((s.data.dropWhile Char.isWhitespace).reverse.dropWhile Char.isWhitespace).reverse)

/-- `String.prototype.substring(0, n)`, computed over the character list. -/
def jsTake (s : String) (n : Nat) : String := String.mk (s.data.take n)

/-- `pat` occurs as a contiguous run inside `l`. -/
def containsSub (pat : List Char) : List Char → Bool
  | [] => pat.isEmpty
  | c :: cs => List.isPrefixOf pat (c :: cs) || containsSub pat cs

/-- JavaScript `String.prototype.includes`. -/
def strIncludes (s pat : String) : Bool := containsSub pat.data s.data

/-- JavaScript `String.prototype.endsWith`. -/
def strEndsWith (s pat : String) : Bool := List.isSuffixOf pat.data s.data

/-! ### Request data and validation (routes/api.track-event, validateEventData) -/

/-- The five fields read off the parsed JSON body. -/
structure EventData where
  popupId : Option JValue
  event : Option JValue
  sessionId : Option JValue
  userAgent : Option JValue
  referrer : Option JValue
deriving DecidableEq

/-- `/^[a-z0-9]{20,30}$/` character class. -/
def isCuidChar (c : Char) : Bool := ('a' ≤ c && c ≤ 'z') || ('0' ≤ c && c ≤ '9')

/-- `/^[a-z0-9]{20,30}$/.test(s)`. -/
def matchesCuidPattern (s : String) : Bool :=
  20 ≤ s.length && s.length ≤ 30 && s.data.all isCuidChar

/-- The three known event kinds. -/
def eventKinds : List String := ["view", "conversion", "close"]

/-- The sanitized data built by `validateEventData` (`cleanData`). -/
structure CleanData where
  popupId : Option String
  event : Option String
  sessionId : Option String
  userAgent : Option String
  referrer : Option String
deriving DecidableEq

/-- `x?.toString().trim().substring(0, 500) || undefined`: trim, truncate to
500 characters, and collapse an empty result to `undefined`. -/
def jsTruncOpt (v : Option JValue) : Option String :=
  match (jsOptToString v).map (fun s => jsTake (jsTrim s) 500) with
  | some s => if s = "" then none else some s
  | none => none

/-- The `cleanData` object of `validateEventData`. -/
def makeCleanData (d : EventData) : CleanData :=
  { popupId := (jsOptToString d.popupId).map jsTrim
    event := (jsOptToString d.event).map jsTrim
    sessionId := (jsOptToString d.sessionId).map jsTrim
    userAgent := jsTruncOpt d.userAgent
    referrer := jsTruncOpt d.referrer }

/-- The error list accumulated by `validateEventData`, in push order. -/
def validationErrors (d : EventData) : List String :=
  (if !(JValue.truthy d.popupId) || !(isStringV d.popupId) then
    ["popupId is required and must be a string"] else [])
  ++ (if !(JValue.truthy d.event) || !(isStringV d.event) then
    ["event is required and must be a string"]
  else if !(eventKinds.contains (strValOf d.event)) then
    ["event must be one of: view, conversion, close"] else [])
  ++ (if !(JValue.truthy d.sessionId) || !(isStringV d.sessionId) then
    ["sessionId is required and must be a string"] else [])
  ++ (if JValue.truthy d.popupId && isStringV d.popupId
        && !(matchesCuidPattern (strValOf d.popupId)) then
    ["popupId format is invalid"] else [])
  ++ (if JValue.truthy d.sessionId && isStringV d.sessionId
        && ((strValOf d.sessionId).length < 10 || (strValOf d.sessionId).length > 100) then
    ["sessionId length must be between 10 and 100 characters"] else [])
  ++ (if JValue.truthy d.userAgent && !(isStringV d.userAgent) then
    ["userAgent must be a string"] else [])
  ++ (if JValue.truthy d.referrer && !(isStringV d.referrer) then
    ["referrer must be a string"] else [])

structure ValidationResult where
  valid : Bool
  errors : List String
  cleanData : Option CleanData
deriving DecidableEq

/-- `validateEventData` from routes/api.track-event. -/
def validateEventData (d : EventData) : ValidationResult :=
  let errors := validationErrors d
  { valid := errors.isEmpty
    errors := errors
    cleanData := if errors.isEmpty then some (makeCleanData d) else none }

/-! ### Rate limiting (routes/api.track-event) -/

def RATE_LIMIT_WINDOW : Int := 60000
def RATE_LIMIT_MAX_REQUESTS : Int := 100

structure RateLimitEntry where
  count : Int
  resetTime : Int
deriving DecidableEq

/-- The module-level `rateLimitStore` Map, as an association list with unique
keys. -/
abbrev RateLimitStore : Type := List (String × RateLimitEntry)

def storeGet (s : RateLimitStore) (k : String) : Option RateLimitEntry :=
  (List.find? (fun p => p.1 = k) s).map (fun p => p.2)

def storeDelete (s : RateLimitStore) (k : String) : RateLimitStore :=
  List.filter (fun p => !(p.1 = k)) s

def storeSet (s : RateLimitStore) (k : String) (v : RateLimitEntry) : RateLimitStore :=
  storeDelete s k ++ [(k, v)]

structure RateLimitResult where
  allowed : Bool
  remaining : Int
deriving DecidableEq

/-- The "clean up expired entries" block of `checkRateLimit`: drop this
key's entry when its window has passed. -/
def expireKey (store : RateLimitStore) (k : String) (now : Int) : RateLimitStore :=
  match storeGet store k with
  | some e => if now > e.resetTime then storeDelete store k else store
  | none => store

/-- `checkRateLimit(ip)`: lazily evict an expired entry for this key, then
deny without mutating when the count has reached the limit, otherwise
increment and allow.  `now` stands for `Date.now()`. -/
def checkRateLimit (store : RateLimitStore) (ip : String) (now : Int) :
    RateLimitStore × RateLimitResult :=
  let key := "rate_limit:" ++ ip
  let store1 := expireKey store key now
  let entry := (storeGet store1 key).getD ⟨0, now + RATE_LIMIT_WINDOW⟩
  if entry.count ≥ RATE_LIMIT_MAX_REQUESTS then
    (store1, ⟨false, 0⟩)
  else
    let entry2 : RateLimitEntry := ⟨entry.count + 1, entry.resetTime⟩
    (storeSet store1 key entry2, ⟨true, RATE_LIMIT_MAX_REQUESTS - entry2.count⟩)

/-- The periodic `setInterval` cleanup: drop every expired entry. -/
def cleanupSweep (s : RateLimitStore) (now : Int) : RateLimitStore :=
  List.filter (fun p => !(now > p.2.resetTime)) s

/-- Request headers consulted by `getClientIP`; `none` models a missing
header (`headers.get` returning `null`). -/
structure ReqHeaders where
  xForwardedFor : Option String
  xRealIP : Option String
  cfConnectingIP : Option String
deriving DecidableEq

/-- `getClientIP(request)`: first truthy among the three headers, with
`x-forwarded-for` split at the first comma and trimmed; else `"unknown"`. -/
def getClientIP (h : ReqHeaders) : String :=
  let fwd := h.xForwardedFor.getD ""
  let real := h.xRealIP.getD ""
  let cf := h.cfConnectingIP.getD ""
  if !(fwd = "") then jsTrim (String.mk (fwd.data.takeWhile (fun c => !(c = ','))))
  else if !(real = "") then real
  else if !(cf = "") then cf
  else "unknown"

/-! ### Database model (prisma schema + models/popup.server.ts) -/

structure Popup where
  id : String
  shop : String
  title : String
  isActive : Bool
  triggerType : String
  triggerValue : Int
  heading : String
  description : Option String
  buttonText : String
  discountCode : Option String
  views : Int
  conversions : Int
  createdAt : Int
  updatedAt : Int
deriving DecidableEq

structure AnalyticsRow where
  popupId : String
  event : String
  sessionId : String
  userAgent : Option String
  referrer : Option String
  timestamp : Int
deriving DecidableEq

structure Db where
  popups : List Popup
  analytics : List AnalyticsRow
deriving DecidableEq

deriving instance DecidableEq for Except

/-- `prisma.popup.findUnique({ where: { id } })`. -/
def findUniquePopup (db : Db) (id : String) : Option Popup :=
  List.find? (fun p => p.id = id) db.popups

/-- The argument record of `trackPopupEvent`. -/
structure AnalyticsEventIn where
  popupId : String
  event : String
  sessionId : String
  userAgent : Option String
  referrer : Option String
deriving DecidableEq

/-- `prisma.popup.update` incrementing the `views` counter; the schema's
`@updatedAt` attribute makes every update also refresh `updatedAt`. -/
def bumpViews (db : Db) (id : String) (now : Int) : Db :=
  { db with popups := db.popups.map (fun p =>
      if p.id = id then { p with views := p.views + 1, updatedAt := now } else p) }

/-- `prisma.popup.update` incrementing the `conversions` counter; the
schema's `@updatedAt` attribute makes every update also refresh
`updatedAt`. -/
def bumpConversions (db : Db) (id : String) (now : Int) : Db :=
  { db with popups := db.popups.map (fun p =>
      if p.id = id then { p with conversions := p.conversions + 1, updatedAt := now } else p) }

/-- The body of `trackPopupEvent`'s `try` block: verify the popup exists
(`throw new Error('Popup not found')` otherwise), append the analytics row,
then update the counter matching the event kind. -/
def trackPopupEventCore (db : Db) (data : AnalyticsEventIn) (now : Int) :
    Except String (Db × AnalyticsRow) :=
  match findUniquePopup db data.popupId with
  | none => Except.error "Popup not found"
  | some _ =>
    let row : AnalyticsRow :=
      ⟨data.popupId, data.event, data.sessionId, data.userAgent, data.referrer, now⟩
    let db1 : Db := { db with analytics := db.analytics ++ [row] }
    let db2 : Db :=
      if data.event = "view" then bumpViews db1 data.popupId now
      else if data.event = "conversion" then bumpConversions db1 data.popupId now
      else db1
    Except.ok (db2, row)

/-- `trackPopupEvent`: its `catch` swallows the specific error and rethrows
`'Failed to track popup event'`. -/
def trackPopupEvent (db : Db) (data : AnalyticsEventIn) (now : Int) :
    Except String (Db × AnalyticsRow) :=
  match trackPopupEventCore db data now with
  | Except.ok r => Except.ok r
  | Except.error _ => Except.error "Failed to track popup event"

/-! ### The POST /api/track-event action -/

/-- `getCORSHeaders(origin)`. -/
def getCORSHeaders (origin : Option String) : List (String × String) :=
  let base : List (String × String) :=
    [("Access-Control-Allow-Methods", "POST, OPTIONS"),
     ("Access-Control-Allow-Headers", "Content-Type, Accept"),
     ("Access-Control-Max-Age", "86400")]
  match origin with
  | none => base
  | some o =>
    if strEndsWith o ".myshopify.com" || strIncludes o "localhost"
        || strIncludes o "127.0.0.1" || strIncludes o "ngrok.io"
        || strIncludes o "vercel.app" then
      base ++ [("Access-Control-Allow-Origin", o), ("Access-Control-Allow-Credentials", "true")]
    else base

structure ApiResponse where
  status : Nat
  headers : List (String × String)
  error : Option String
  message : Option String
  errors : List String
  success : Bool
deriving DecidableEq

def headerVal (r : ApiResponse) (name : String) : Option String :=
  (List.find? (fun p => p.1 = name) r.headers).map (fun p => p.2)

/-- A POST request to the tracking endpoint; `body = none` models a JSON
parse failure. -/
structure TrackRequest where
  origin : Option String
  hdrs : ReqHeaders
  body : Option EventData

def defaultClean : CleanData := ⟨none, none, none, none, none⟩

/-- The `trackPopupEvent(validation.cleanData!)` call site: collapse the
clean fields to the plain record the model function takes. -/
def cleanToEventIn (c : CleanData) : AnalyticsEventIn :=
  { popupId := c.popupId.getD ""
    event := c.event.getD ""
    sessionId := c.sessionId.getD ""
    userAgent := c.userAgent
    referrer := c.referrer }

/-- The route `action` for POST /api/track-event: rate-limit check, body
parse, field validation, then `trackPopupEvent`, mirroring each response's
status, headers and body fields.  (`Retry-After` is
`Math.ceil(RATE_LIMIT_WINDOW / 1000)`, an exact division here.) -/
def trackAction (req : TrackRequest) (store : RateLimitStore) (now : Int) (db : Db) :
    RateLimitStore × Db × ApiResponse :=
  let corsHeaders := getCORSHeaders req.origin
  let clientIP := getClientIP req.hdrs
  let rl := checkRateLimit store clientIP now
  let store1 := rl.1
  let res := rl.2
  if !res.allowed then
    (store1, db,
      { status := 429
        headers := [("X-RateLimit-Limit", toString RATE_LIMIT_MAX_REQUESTS),
                    ("X-RateLimit-Remaining", "0"),
                    ("X-RateLimit-Reset", toString (now + RATE_LIMIT_WINDOW)),
                    ("Retry-After", toString (RATE_LIMIT_WINDOW / 1000))] ++ corsHeaders
        error := some "Rate limit exceeded"
        message := some "Too many requests, please try again later"
        errors := []
        success := false })
  else
    let rlHeaders : List (String × String) :=
      [("X-RateLimit-Limit", toString RATE_LIMIT_MAX_REQUESTS),
       ("X-RateLimit-Remaining", toString res.remaining)]
    match req.body with
    | none =>
      (store1, db,
        { status := 400, headers := rlHeaders ++ corsHeaders
          error := some "Invalid JSON"
          message := some "Request body must be valid JSON"
          errors := [], success := false })
    | some eventData =>
      let validation := validateEventData eventData
      if !validation.valid then
        (store1, db,
          { status := 400, headers := rlHeaders ++ corsHeaders
            error := some "Validation failed"
            message := none
            errors := validation.errors, success := false })
      else
        match trackPopupEvent db (cleanToEventIn (validation.cleanData.getD defaultClean)) now with
        | Except.ok (db2, _) =>
          (store1, db2,
            { status := 200, headers := rlHeaders ++ corsHeaders
              error := none
              message := some "Event tracked successfully"
              errors := [], success := true })
        | Except.error _ =>
          (store1, db,
            { status := 500, headers := rlHeaders ++ corsHeaders
              error := some "Internal server error"
              message := some "Failed to track event"
              errors := [], success := false })

/-! ### Admin detection (popup-script.js, isShopifyAdmin) -/

/-- An explicit snapshot of the browser environment probed by
`isShopifyAdmin`.  `selfIsTop` is `window.self === window.top`;
`parentAccessible` is false when reading `window.parent.location` throws
(cross-origin frame); `querySelectorMatches sel` is
`document.querySelector(sel) !== null`; `shopifyAdminTruthy` is
`window.Shopify && window.Shopify.admin`; `queryParams` are the query
parameter names; `throwsUnexpected` models any heuristic throwing an
unexpected error, landing in the outer `catch`. -/
structure BrowserEnv where
  hostname : String
  pathname : String
  selfIsTop : Bool
  parentAccessible : Bool
  parentHostname : String
  querySelectorMatches : String → Bool
  hasShopifyObj : Bool
  shopifyAdminTruthy : Bool
  queryParams : List String
  throwsUnexpected : Bool

def adminPaths : List String := ["/admin/", "/admin", "/admin.php"]

def adminSelectors : List String :=
  ["[data-shopify-admin]", ".shopify-admin", "#shopify-admin",
   "[href*=\"admin.shopify.com\"]", ".admin-bar", ".admin-header"]

/-- `isShopifyAdmin()`: the heuristics in source order; the outer `catch`
returns `true` on any unexpected error, and the iframe check returns `true`
both when the parent is the admin host and when reading it throws. -/
def isShopifyAdmin (env : BrowserEnv) : Bool :=
  if env.throwsUnexpected then true
  else if env.hostname = "admin.shopify.com" then true
  else if adminPaths.any (fun p => strIncludes env.pathname p) then true
  else if !env.selfIsTop
      && (if env.parentAccessible then strIncludes env.parentHostname "admin.shopify.com"
          else true) then true
  else if adminSelectors.any env.querySelectorMatches then true
  else if env.hasShopifyObj && env.shopifyAdminTruthy then true
  else if env.queryParams.contains "preview_theme_id" || env.queryParams.contains "_ab"
      || env.queryParams.contains "_fd" then true
  else false

/-! ### Popup configuration and session store -/

structure PopupConfig where
  id : String
  triggerType : String
  triggerValue : Int
  heading : String
  description : Option String
  buttonText : String
  discountCode : Option String
deriving DecidableEq

/-- Browser session state: `smartpop_session` id plus the `smartpop_shown`
list. -/
structure SessionState where
  sessionId : String
  shownPopupIds : List String
deriving DecidableEq

/-- `hasPopupBeenShown(popupId)`. -/
def hasPopupBeenShown (s : SessionState) (popupId : String) : Bool :=
  s.shownPopupIds.contains popupId

/-- `markPopupAsShown(popupId)`: push the id if not already present. -/
def markPopupAsShown (s : SessionState) (popupId : String) : SessionState :=
  if s.shownPopupIds.contains popupId then s
  else { s with shownPopupIds := s.shownPopupIds ++ [popupId] }

/-! ### Initialization (initSmartPop): which trigger listeners get armed -/

/-- The per-popup arming loop of `initSmartPop`: after the admin guard and
the empty-config early return, each popup not already in the session's shown
set arms the listener matching its `triggerType` (unknown types arm
nothing).  The result lists `(popup id, trigger type)` pairs of armed
listeners. -/
def armedListeners (env : BrowserEnv) (popups : List PopupConfig) (shown : List String) :
    List (String × String) :=
  if isShopifyAdmin env then []
  else if popups.isEmpty then []
  else
    (popups.filter (fun p => !(shown.contains p.id))).filterMap (fun p =>
      if p.triggerType = "delay" then some (p.id, "delay")
      else if p.triggerType = "scroll" then some (p.id, "scroll")
      else if p.triggerType = "exit" then some (p.id, "exit")
      else none)

/-! ### Popup renderer lifecycle (showPopup) -/

inductive PEvent where
  | view : PEvent
  | conversion : PEvent
  | close : PEvent
deriving DecidableEq

/-- The `showPopup` guard plus its session effects: skip entirely when the
popup was already shown this session, otherwise display it, track a `view`
event and mark it shown.  Returns (new session, displayed?, tracked
events). -/
def showPopupStep (s : SessionState) (cfg : PopupConfig) : SessionState × Bool × List PEvent :=
  if hasPopupBeenShown s cfg.id then (s, false, [])
  else (markPopupAsShown s cfg.id, true, [PEvent.view])

/-- A sequence of `showPopup` calls threading the session store; the trace
records `(popup id, event)` for every tracked event. -/
def runShows (s : SessionState) (cfgs : List PopupConfig) :
    SessionState × List (String × PEvent) :=
  match cfgs with
  | [] => (s, [])
  | c :: cs =>
    let step := showPopupStep s c
    let rest := runShows step.1 cs
    (rest.1, step.2.2.map (fun e => (c.id, e)) ++ rest.2)

def countViews (pid : String) (trace : List (String × PEvent)) : Nat :=
  (trace.filter (fun q => q.1 = pid && q.2 = PEvent.view)).length

/-- State of one displayed popup instance (overlay, form, error line and the
3-second auto-dismiss timer armed by a successful submission). -/
structure RendererState where
  tracked : List PEvent
  showClass : Bool
  formPresent : Bool
  submitDisabled : Bool
  errorVisible : Bool
  errorText : String
  autoCloseScheduled : Bool
  escListenerActive : Bool
deriving DecidableEq

/-- The instance state right after `showPopup` displayed the popup: one
`view` event tracked, form visible, close/escape handlers installed. -/
def initialRenderer : RendererState :=
  { tracked := [PEvent.view]
    showClass := true
    formPresent := true
    submitDisabled := false
    errorVisible := false
    errorText := ""
    autoCloseScheduled := false
    escListenerActive := true }

/-- `closePopup()`: drop the `show` class, track a `close` event
(unconditionally), schedule DOM removal. -/
def closePopup (s : RendererState) : RendererState :=
  { s with showClass := false, tracked := s.tracked ++ [PEvent.close] }

/-- `/^[^\s@]+@[^\s@]+\.[^\s@]+$/`: split at `'@'`; exactly one `'@'`, a
non-empty whitespace-free local part, and a domain with an interior dot. -/
def splitChar (sep : Char) : List Char → List (List Char)
  | [] => [[]]
  | c :: cs =>
    match splitChar sep cs with
    | [] => [[]]
    | h :: t => if c = sep then [] :: h :: t else (c :: h) :: t

/-- `validateEmail(email)` per the regex above. -/
def validateEmail (email : String) : Bool :=
  match splitChar '@' email.data with
  | [l, d] =>
    !(l.isEmpty) && l.all (fun c => !c.isWhitespace)
      && d.all (fun c => !c.isWhitespace)
      && (match d with
          | [] => false
          | _ :: rest => rest.dropLast.contains '.')
  | _ => false

/-- The form `submit` handler: trim, surface an inline error on empty or
invalid input (no event tracked), otherwise disable the submit control,
track a `conversion`, swap the form for the success panel and schedule
`closePopup` after 3 seconds. -/
def submitHandler (s : RendererState) (raw : String) : RendererState :=
  if !s.formPresent then s
  else
    let email := jsTrim raw
    let s1 := { s with errorVisible := false }
    if email = "" then
      { s1 with errorText := "Please enter your email address", errorVisible := true }
    else if !(validateEmail email) then
      { s1 with errorText := "Please enter a valid email address", errorVisible := true }
    else
      { s1 with submitDisabled := true
                tracked := s1.tracked ++ [PEvent.conversion]
                formPresent := false
                autoCloseScheduled := true }

inductive RendererAction where
  | submitForm (raw : String) : RendererAction
  | closeClick : RendererAction
  | backdropClick : RendererAction
  | escapeKey : RendererAction
  | autoCloseFire : RendererAction
deriving DecidableEq

/-- One renderer event: the close button and a click on the backdrop call
`closePopup`; Escape calls it once and removes its own listener; the
3-second timer armed by a successful submit runs `closePopup`. -/
def rendererStep (s : RendererState) : RendererAction → RendererState
  | RendererAction.submitForm raw => submitHandler s raw
  | RendererAction.closeClick => closePopup s
  | RendererAction.backdropClick => closePopup s
  | RendererAction.escapeKey =>
    if s.escListenerActive then { closePopup s with escListenerActive := false } else s
  | RendererAction.autoCloseFire =>
    if s.autoCloseScheduled then closePopup { s with autoCloseScheduled := false } else s

def rendererRun (s : RendererState) (acts : List RendererAction) : RendererState :=
  acts.foldl rendererStep s

def countEvent (evs : List PEvent) (e : PEvent) : Nat :=
  (evs.filter (fun x => x = e)).length

/-! ### Delay trigger (setupDelayTrigger) -/

/-- State of one armed delay trigger: the pending `setTimeout`, the page's
visibility, and whether the popup got shown by this trigger. -/
structure DelayTriggerState where
  timerActive : Bool
  hidden : Bool
  popupShown : Bool
deriving DecidableEq

inductive DelayEvent where
  | visChange (hidden : Bool) : DelayEvent
  | timerFire : DelayEvent
deriving DecidableEq

/-- Right after `setupDelayTrigger` on a visible page: timer pending,
nothing shown. -/
def initDelay : DelayTriggerState := ⟨true, false, false⟩

/-- One step: a `visibilitychange` to hidden clears the pending timer; the
timer firing (possible only while the timeout is still pending) shows the
popup only if the page is not hidden at fire time. -/
def delayStep (s : DelayTriggerState) : DelayEvent → DelayTriggerState
  | DelayEvent.visChange h =>
    let s1 := { s with hidden := h }
    if h then { s1 with timerActive := false } else s1
  | DelayEvent.timerFire =>
    if s.timerActive then
      { s with timerActive := false, popupShown := s.popupShown || !s.hidden }
    else s

def delayRun (s : DelayTriggerState) (evs : List DelayEvent) : DelayTriggerState :=
  evs.foldl delayStep s

/-! ### Scroll trigger (setupScrollTrigger) -/

/-- One invocation's measurements: `window.pageYOffset`,
`documentElement.scrollHeight`, `window.innerHeight`. -/
structure ScrollMeasure where
  scrollTop : ℚ
  scrollHeight : ℚ
  innerHeight : ℚ
deriving DecidableEq

/-- `(scrollTop / (scrollHeight - innerHeight)) * 100`. -/
def scrollPercentage (m : ScrollMeasure) : ℚ :=
  m.scrollTop / (m.scrollHeight - m.innerHeight) * 100

/-- State of one armed scroll trigger: the `triggered` flag, whether the
listener is still attached, and how many times the popup fired. -/
structure ScrollTriggerState where
  triggered : Bool
  listenerAttached : Bool
  fireCount : Nat
deriving DecidableEq

def initScroll : ScrollTriggerState := ⟨false, true, 0⟩

/-- One (throttled) scroll-handler invocation: a detached listener receives
nothing; the `triggered` guard returns early; otherwise fire exactly when
the percentage reaches the threshold (equality included) and detach. -/
def scrollStep (threshold : ℚ) (s : ScrollTriggerState) (m : ScrollMeasure) :
    ScrollTriggerState :=
  if !s.listenerAttached then s
  else if s.triggered then s
  else if scrollPercentage m ≥ threshold then
    { triggered := true, listenerAttached := false, fireCount := s.fireCount + 1 }
  else s

def scrollRun (threshold : ℚ) (s : ScrollTriggerState) (ms : List ScrollMeasure) :
    ScrollTriggerState :=
  ms.foldl (scrollStep threshold) s

/-! ### Derived notions used by the theorems -/

/-- The store key `checkRateLimit` uses for a client ip. -/
def rlKey (ip : String) : String := "rate_limit:" ++ ip

/-- A sequence of `checkRateLimit` calls for one client, threading the
store; returns the final store and the per-request results. -/
def runRequests (store : RateLimitStore) (ip : String) (times : List Int) :
    RateLimitStore × List RateLimitResult :=
  match times with
  | [] => (store, [])
  | t :: ts =>
    let r := checkRateLimit store ip t
    let rest := runRequests r.1 ip ts
    (rest.1, r.2 :: rest.2)

/-- Stores reachable from the module-load state (`new Map()`) by requests
and periodic cleanup sweeps — the only code paths that touch
`rateLimitStore`. -/
inductive RLReachable : RateLimitStore → Prop where
  | init : RLReachable []
  | request (s : RateLimitStore) (ip : String) (now : Int) :
      RLReachable s → RLReachable (checkRateLimit s ip now).1
  | sweep (s : RateLimitStore) (now : Int) :
      RLReachable s → RLReachable (cleanupSweep s now)

/-- How one `trackPopupEvent` counter update is allowed to change a stored
popup: the counters bumped according to the event kind and `updatedAt`
refreshed (`@updatedAt`), every other field untouched. -/
def withCounters (v c upd : Int) (q : Popup) : Popup :=
  { q with views := v, conversions := c, updatedAt := upd }

/-! ### Concrete fixtures for counterexamples and witnesses -/

/-- The scroll trigger state is always either untriggered with an attached
listener and no fire, or triggered with a detached listener and exactly one
fire. -/
def scrollGood (s : ScrollTriggerState) : Prop :=
  (s.triggered = false ∧ s.listenerAttached = true ∧ s.fireCount = 0)
  ∨ (s.triggered = true ∧ s.listenerAttached = false ∧ s.fireCount = 1)

def fixPopupId : String := "abcdefghij0123456789"

def fixPopup : Popup :=
  ⟨fixPopupId, "s.myshopify.com", "Sale", true, "delay", 5, "Get 10% off", none,
   "Get Discount", none, 3, 1, 0, 0⟩

/-- A body that passes `validateEventData`. -/
def fixValidData : EventData :=
  ⟨some (JValue.str fixPopupId), some (JValue.str "view"),
   some (JValue.str "session123"), none, none⟩

/-- A body whose `userAgent` is present (`0`) but not a string. -/
def fixUaNumData : EventData :=
  { fixValidData with userAgent := some (JValue.num 0) }

/-- A body whose `sessionId` is too short. -/
def fixShortSessData : EventData :=
  { fixValidData with sessionId := some (JValue.str "short") }

def fixReqOf (d : EventData) : TrackRequest := ⟨none, ⟨none, none, none⟩, some d⟩

def fixPopupCfg : PopupConfig :=
  ⟨fixPopupId, "delay", 5, "Get 10% off", none, "Get Discount", none⟩

def fixEventIn : AnalyticsEventIn :=
  ⟨fixPopupId, "view", "session123", some "UA", none⟩

def fixEnvThrows : BrowserEnv :=
  ⟨"shop.myshopify.com", "/products/x", true, true, "", fun _ => false,
   false, false, [], true⟩

/-! ## Helper lemmas -/

lemma isShopifyAdmin_eq_disj (env : BrowserEnv) :
    isShopifyAdmin env =
      (env.throwsUnexpected
        || env.hostname == "admin.shopify.com"
        || adminPaths.any (fun p => strIncludes env.pathname p)
        || (!env.selfIsTop
            && (if env.parentAccessible then strIncludes env.parentHostname "admin.shopify.com"
                else true))
        || adminSelectors.any env.querySelectorMatches
        || (env.hasShopifyObj && env.shopifyAdminTruthy)
        || env.queryParams.contains "preview_theme_id" || env.queryParams.contains "_ab"
        || env.queryParams.contains "_fd") := by
  unfold isShopifyAdmin
  split_ifs <;> simp_all <;> tauto

lemma armed_mem_not_shown (env : BrowserEnv) (popups : List PopupConfig)
    (shown : List String) (x : String × String)
    (hx : x ∈ armedListeners env popups shown) : shown.contains x.1 = false := by
  unfold armedListeners at hx
  split at hx
  · simp at hx
  · split at hx
    · simp at hx
    · obtain ⟨p, hp, hf⟩ := List.mem_filterMap.mp hx
      obtain ⟨hpmem, hps⟩ := List.mem_filter.mp hp
      have hid : x.1 = p.id := by
        split at hf
        · cases hf; rfl
        · split at hf
          · cases hf; rfl
          · split at hf
            · cases hf; rfl
            · cases hf
      rw [hid]
      simpa using hps

lemma mark_contains_self (s : SessionState) (i : String) :
    (markPopupAsShown s i).shownPopupIds.contains i = true := by
  unfold markPopupAsShown
  split
  · assumption
  · simp

lemma mark_contains_other (s : SessionState) (i pid : String) (h : ¬ pid = i) :
    (markPopupAsShown s i).shownPopupIds.contains pid = s.shownPopupIds.contains pid := by
  unfold markPopupAsShown
  split
  · rfl
  · simp [h]

lemma countViews_cons (pid i : String) (e : PEvent) (tr : List (String × PEvent)) :
    countViews pid ((i, e) :: tr)
      = (if i = pid ∧ e = PEvent.view then 1 else 0) + countViews pid tr := by
  unfold countViews
  rw [List.filter_cons]
  by_cases h : i = pid ∧ e = PEvent.view
  · rw [if_pos (by simp [h.1, h.2]), if_pos h]
    simp [Nat.add_comm]
  · rw [if_neg (by simpa [Bool.and_eq_true, decide_eq_true_eq] using h), if_neg h]
    simp

lemma countViews_runShows_le (cfgs : List PopupConfig) (s : SessionState) (pid : String) :
    countViews pid (runShows s cfgs).2 ≤ (if s.shownPopupIds.contains pid then 0 else 1) := by
  induction cfgs generalizing s with
  | nil => simp [runShows, countViews]
  | cons c cs ih =>
    by_cases hc : hasPopupBeenShown s c.id
    · have hstep : showPopupStep s c = (s, false, []) := by
        unfold showPopupStep
        rw [if_pos hc]
      simp only [runShows, hstep]
      simpa using ih s
    · have hstep : showPopupStep s c = (markPopupAsShown s c.id, true, [PEvent.view]) := by
        unfold showPopupStep
        rw [if_neg hc]
      have hsc : s.shownPopupIds.contains c.id = false := by
        unfold hasPopupBeenShown at hc
        simpa using hc
      simp only [runShows, hstep, List.map_cons, List.map_nil, List.cons_append,
        List.nil_append]
      rw [countViews_cons]
      have h1 := ih (markPopupAsShown s c.id)
      by_cases hpid : c.id = pid
      · rw [← hpid] at h1 ⊢
        rw [mark_contains_self] at h1
        rw [hsc]
        simp at h1 ⊢
        omega
      · rw [mark_contains_other s c.id pid (fun hh => hpid hh.symm)] at h1
        rw [if_neg (fun hh => hpid hh.1)]
        omega

/-! ## Claims -/

lemma storeGet_singleton (k : String) (e : RateLimitEntry) :
    storeGet [(k, e)] k = some e := by
  simp [storeGet]

lemma checkRateLimit_empty (ip : String) (now : Int) :
    checkRateLimit [] ip now = ([(rlKey ip, ⟨1, now + 60000⟩)], ⟨true, 99⟩) := by
  simp [checkRateLimit, expireKey, storeGet, storeSet, storeDelete, rlKey,
    RATE_LIMIT_WINDOW, RATE_LIMIT_MAX_REQUESTS]

lemma checkRateLimit_live (ip : String) (now reset c : Int)
    (hnow : ¬ now > reset) (hc : c < 100) :
    checkRateLimit [(rlKey ip, ⟨c, reset⟩)] ip now
      = ([(rlKey ip, ⟨c + 1, reset⟩)], ⟨true, 100 - (c + 1)⟩) := by
  simp [checkRateLimit, expireKey, storeGet, storeSet, storeDelete, rlKey,
    RATE_LIMIT_WINDOW, RATE_LIMIT_MAX_REQUESTS, hnow]
  omega

lemma checkRateLimit_full (ip : String) (now reset : Int) (hnow : ¬ now > reset) :
    checkRateLimit [(rlKey ip, ⟨100, reset⟩)] ip now
      = ([(rlKey ip, ⟨100, reset⟩)], ⟨false, 0⟩) := by
  simp [checkRateLimit, expireKey, storeGet, storeSet, storeDelete, rlKey,
    RATE_LIMIT_WINDOW, RATE_LIMIT_MAX_REQUESTS, hnow]

lemma runRequests_steady (ip : String) (reset : Int) (ts : List Int) (c : Int)
    (hts : ∀ u ∈ ts, ¬ u > reset) (hc : 0 ≤ c) (hlen : c + ts.length ≤ 100) :
    (runRequests [(rlKey ip, ⟨c, reset⟩)] ip ts).1
      = [(rlKey ip, ⟨c + ts.length, reset⟩)]
    ∧ (∀ r ∈ (runRequests [(rlKey ip, ⟨c, reset⟩)] ip ts).2, r.allowed = true)
    ∧ (runRequests [(rlKey ip, ⟨c, reset⟩)] ip ts).2.length = ts.length := by
  induction ts generalizing c with
  | nil => simp [runRequests]
  | cons t ts ih =>
    have hc100 : c < 100 := by
      simp at hlen
      omega
    have hstep := checkRateLimit_live ip t reset c (hts t (List.mem_cons_self t ts)) hc100
    have hrec := ih (c + 1) (fun u hu => hts u (List.mem_cons_of_mem t hu)) (by omega)
      (by simp at hlen ⊢; omega)
    simp only [runRequests, hstep]
    refine ⟨?_, ?_, ?_⟩
    · rw [hrec.1]
      have hlen2 : c + 1 + (ts.length : Int) = c + ((t :: ts).length : Int) := by
        simp
        omega
      rw [hlen2]
    · intro r hr
      rcases List.mem_cons.mp hr with hr | hr
      · rw [hr]
      · exact hrec.2.1 r hr
    · simp only [List.length_cons]
      rw [hrec.2.2]


lemma find?_header (name v : String) (l1 l2 : List (String × String))
    (h1 : ∀ p ∈ l1, ¬ p.1 = name) :
    List.find? (fun p => p.1 = name) (l1 ++ (name, v) :: l2) = some (name, v) := by
  induction l1 with
  | nil => simp [List.find?]
  | cons a l ih =>
    rw [List.cons_append, List.find?_cons_of_neg]
    · exact ih (fun p hp => h1 p (List.mem_cons_of_mem a hp))
    · simp [h1 a (List.mem_cons_self a l)]

/-- C3: for one client key starting from an empty (or expired) window, all
of the first 100 requests within the 60-second window are allowed (so the
100th is not rate-limited); the 101st request within the same window is
denied, receives HTTP 429 with `Retry-After` and `X-RateLimit-*` headers,
and consumes no window capacity (the store is unchanged by the denied
request, at the limiter and through the endpoint). -/
theorem c3_rate_limit_window (ip : String) (t : Int) (mid : List Int) (u : Int)
    (req : TrackRequest) (db : Db)
    (hlen : mid.length = 99)
    (hmid : ∀ v ∈ mid, v ≤ t + 60000)
    (hu : u ≤ t + 60000)
    (hip : getClientIP req.hdrs = ip) :
    (∀ r ∈ (runRequests [] ip (t :: mid)).2, r.allowed = true)
    ∧ (runRequests [] ip (t :: mid)).2.length = 100
    ∧ (checkRateLimit (runRequests [] ip (t :: mid)).1 ip u).2 = ⟨false, 0⟩
    ∧ (checkRateLimit (runRequests [] ip (t :: mid)).1 ip u).1
        = (runRequests [] ip (t :: mid)).1
    ∧ (trackAction req (runRequests [] ip (t :: mid)).1 u db).1
        = (runRequests [] ip (t :: mid)).1
    ∧ (trackAction req (runRequests [] ip (t :: mid)).1 u db).2.1 = db
    ∧ (trackAction req (runRequests [] ip (t :: mid)).1 u db).2.2.status = 429
    ∧ headerVal (trackAction req (runRequests [] ip (t :: mid)).1 u db).2.2 "Retry-After"
        = some "60"
    ∧ headerVal (trackAction req (runRequests [] ip (t :: mid)).1 u db).2.2
        "X-RateLimit-Limit" = some "100"
    ∧ headerVal (trackAction req (runRequests [] ip (t :: mid)).1 u db).2.2
        "X-RateLimit-Remaining" = some "0"
    ∧ headerVal (trackAction req (runRequests [] ip (t :: mid)).1 u db).2.2
        "X-RateLimit-Reset" = some (toString (u + 60000)) := by
  have hfirst := checkRateLimit_empty ip t
  have hsteady := runRequests_steady ip (t + 60000) mid 1
    (fun v hv => by have := hmid v hv; omega) (by omega) (by rw [hlen]; norm_num)
  have hstore : (runRequests [] ip (t :: mid)).1 = [(rlKey ip, ⟨100, t + 60000⟩)] := by
    simp only [runRequests, hfirst]
    rw [hsteady.1, hlen]
    norm_num
  have hallow : ∀ r ∈ (runRequests [] ip (t :: mid)).2, r.allowed = true := by
    intro r hr
    simp only [runRequests, hfirst] at hr
    rcases List.mem_cons.mp hr with hr | hr
    · rw [hr]
    · exact hsteady.2.1 r hr
  have hcount : (runRequests [] ip (t :: mid)).2.length = 100 := by
    simp only [runRequests, hfirst, List.length_cons]
    rw [hsteady.2.2, hlen]
  have hcheck : checkRateLimit (runRequests [] ip (t :: mid)).1 ip u
      = ((runRequests [] ip (t :: mid)).1, ⟨false, 0⟩) := by
    rw [hstore]
    exact checkRateLimit_full ip u (t + 60000) (by omega)
  have haction : trackAction req (runRequests [] ip (t :: mid)).1 u db
      = ((runRequests [] ip (t :: mid)).1, db,
         { status := 429
           headers := [("X-RateLimit-Limit", toString RATE_LIMIT_MAX_REQUESTS),
                       ("X-RateLimit-Remaining", "0"),
                       ("X-RateLimit-Reset", toString (u + RATE_LIMIT_WINDOW)),
                       ("Retry-After", toString (RATE_LIMIT_WINDOW / 1000))]
             ++ getCORSHeaders req.origin
           error := some "Rate limit exceeded"
           message := some "Too many requests, please try again later"
           errors := [], success := false }) := by
    simp [trackAction, hip, hcheck]
  refine ⟨hallow, hcount, by rw [hcheck], by rw [hcheck], by rw [haction],
    by rw [haction], by rw [haction], ?_, ?_, ?_, ?_⟩
  · rw [haction]
    show headerVal _ _ = _
    simp [headerVal, List.find?]
    decide
  · rw [haction]
    show headerVal _ _ = _
    simp [headerVal, List.find?]
    decide
  · rw [haction]
    show headerVal _ _ = _
    simp [headerVal, List.find?]
  · rw [haction]
    show headerVal _ _ = _
    simp [headerVal, List.find?, RATE_LIMIT_WINDOW]
/-- C3 witness: 100 requests at time 0, then a denied one at time 5. -/
theorem c3_witness :
    (checkRateLimit (runRequests [] "9.9.9.9" ((0 : Int) :: List.replicate 99 (0 : Int))).1
        "9.9.9.9" 5).2 = ⟨false, 0⟩
    ∧ (trackAction ⟨none, ⟨some "9.9.9.9", none, none⟩, none⟩
        (runRequests [] "9.9.9.9" ((0 : Int) :: List.replicate 99 (0 : Int))).1 5
        ⟨[], []⟩).2.2.status = 429 := by
  have h := c3_rate_limit_window "9.9.9.9" 0 (List.replicate 99 (0 : Int)) 5
    ⟨none, ⟨some "9.9.9.9", none, none⟩, none⟩ ⟨[], []⟩
    (by simp) (fun v hv => by rw [List.eq_of_mem_replicate hv]; omega) (by omega) (by decide)
  exact ⟨h.2.2.1, h.2.2.2.2.2.2.1⟩

/-- C4: if any admin-detection heuristic matches (admin hostname, admin path
segment, embedded in a cross-origin frame — including the case where
reading the parent's location throws — admin DOM markers, the
`Shopify.admin` object, admin URL query parameters), or the detection code
itself throws an unexpected error, then `isShopifyAdmin` returns `true` and
initialization arms no trigger listener for any popup (fail closed). -/
theorem c4_admin_guard_fail_closed (env : BrowserEnv) (popups : List PopupConfig)
    (shown : List String)
    (h : env.throwsUnexpected = true
      ∨ env.hostname = "admin.shopify.com"
      ∨ adminPaths.any (fun p => strIncludes env.pathname p) = true
      ∨ (env.selfIsTop = false
          ∧ (env.parentAccessible = false
             ∨ strIncludes env.parentHostname "admin.shopify.com" = true))
      ∨ adminSelectors.any env.querySelectorMatches = true
      ∨ (env.hasShopifyObj = true ∧ env.shopifyAdminTruthy = true)
      ∨ env.queryParams.contains "preview_theme_id" = true
      ∨ env.queryParams.contains "_ab" = true
      ∨ env.queryParams.contains "_fd" = true) :
    isShopifyAdmin env = true ∧ armedListeners env popups shown = [] := by
  have hadmin : isShopifyAdmin env = true := by
    rw [isShopifyAdmin_eq_disj]
    have hif : ((if env.parentAccessible then strIncludes env.parentHostname "admin.shopify.com"
        else true) = true)
        ↔ (env.parentAccessible = false
           ∨ strIncludes env.parentHostname "admin.shopify.com" = true) := by
      cases hacc : env.parentAccessible <;> simp [hacc]
    simp only [Bool.or_eq_true, Bool.and_eq_true, Bool.not_eq_true', beq_iff_eq, hif]
    tauto
  exact ⟨hadmin, by simp [armedListeners, hadmin]⟩

/-- C4 witness: a concrete environment where the detection code throws. -/
theorem c4_witness :
    isShopifyAdmin fixEnvThrows = true
    ∧ armedListeners fixEnvThrows [fixPopupCfg] [] = [] :=
  c4_admin_guard_fail_closed fixEnvThrows [fixPopupCfg] [] (Or.inl rfl)

/-- C5: a popup id already recorded in the session's shown set gets no
trigger listener armed during initialization (for any trigger type), and
`showPopup` returns without displaying anything or recording events;
consequently each popup gets at most one `view` per browser session across
any sequence of `showPopup` calls. -/
theorem c5_shown_popup_suppressed (env : BrowserEnv) (popups : List PopupConfig)
    (sess : SessionState) (cfg : PopupConfig)
    (h : sess.shownPopupIds.contains cfg.id = true) :
    (∀ t, ¬ ((cfg.id, t) ∈ armedListeners env popups sess.shownPopupIds))
    ∧ showPopupStep sess cfg = (sess, false, [])
    ∧ (∀ (s : SessionState) (cfgs : List PopupConfig) (pid : String),
        countViews pid (runShows s cfgs).2 ≤ 1) := by
  refine ⟨?_, ?_, ?_⟩
  · intro t hmem
    have := armed_mem_not_shown env popups sess.shownPopupIds (cfg.id, t) hmem
    rw [h] at this
    cases this
  · unfold showPopupStep hasPopupBeenShown
    rw [if_pos h]
  · intro s cfgs pid
    refine le_trans (countViews_runShows_le cfgs s pid) ?_
    split <;> omega

/-- C5 witness: a concrete session that has already shown the fixture
popup. -/
theorem c5_witness :
    (∀ t, ¬ ((fixPopupId, t) ∈
        armedListeners fixEnvThrows [fixPopupCfg] [fixPopupId]))
    ∧ showPopupStep ⟨"sid", [fixPopupId]⟩ fixPopupCfg = (⟨"sid", [fixPopupId]⟩, false, []) := by
  have h := c5_shown_popup_suppressed fixEnvThrows [fixPopupCfg]
    ⟨"sid", [fixPopupId]⟩ fixPopupCfg (by decide)
  exact ⟨h.1, h.2.1⟩

/-- Runs containing no timer firing never show the popup. -/
lemma delayRun_no_timerFire (evs : List DelayEvent) (s : DelayTriggerState)
    (h : DelayEvent.timerFire ∉ evs) : (delayRun s evs).popupShown = s.popupShown := by
  induction evs generalizing s with
  | nil => rfl
  | cons e es ih =>
    have he : e ≠ DelayEvent.timerFire := fun hh => h (hh ▸ List.mem_cons_self e es)
    have hes : DelayEvent.timerFire ∉ es := fun hh => h (List.mem_cons_of_mem e hh)
    cases e with
    | visChange b =>
      simp only [delayRun, List.foldl_cons] at ih ⊢
      rw [ih _ hes]
      cases b <;> simp [delayStep]
    | timerFire => exact absurd rfl he

/-- Once the timeout is cleared and nothing is shown, it stays that way. -/
lemma delayRun_cleared (evs : List DelayEvent) (s : DelayTriggerState)
    (ht : s.timerActive = false) (hp : s.popupShown = false) :
    (delayRun s evs).timerActive = false ∧ (delayRun s evs).popupShown = false := by
  induction evs generalizing s with
  | nil => exact ⟨ht, hp⟩
  | cons e es ih =>
    simp only [delayRun, List.foldl_cons] at ih ⊢
    cases e with
    | visChange b => cases b <;> exact ih _ (by simp [delayStep, ht]) (by simp [delayStep, hp])
    | timerFire => exact ih _ (by simp [delayStep, ht]) (by simp [delayStep, ht, hp])

/-- C6: for a delay trigger, if the page becomes hidden before the timeout
fires, the timer is cancelled and the popup never appears on that page
load, even if the page becomes visible again afterwards; and the timer
firing shows the popup only when the page is visible at fire time. -/
theorem c6_delay_hidden_cancels (pre post : List DelayEvent)
    (hpre : DelayEvent.timerFire ∉ pre) :
    (delayRun initDelay (pre ++ DelayEvent.visChange true :: post)).popupShown = false
    ∧ (∀ s : DelayTriggerState,
        (delayStep s DelayEvent.timerFire).popupShown
          = (s.popupShown || (s.timerActive && !s.hidden)))
    ∧ (∀ (s : DelayTriggerState) (b : Bool),
        (delayStep s (DelayEvent.visChange b)).popupShown = s.popupShown) := by
  refine ⟨?_, ?_, ?_⟩
  · have h1 : (delayRun initDelay pre).popupShown = false := by
      rw [delayRun_no_timerFire pre initDelay hpre]
      rfl
    rw [delayRun, List.foldl_append, List.foldl_cons]
    have h2 : (delayStep (List.foldl delayStep initDelay pre) (DelayEvent.visChange true)).timerActive
        = false := by simp [delayStep]
    have h3 : (delayStep (List.foldl delayStep initDelay pre) (DelayEvent.visChange true)).popupShown
        = false := by
      simp only [delayRun] at h1
      simp [delayStep, h1]
    exact (delayRun_cleared post _ h2 h3).2
  · intro s
    cases h : s.timerActive <;> simp [delayStep, h]
  · intro s b
    cases b <;> simp [delayStep]

/-- C6 witness: hidden before the timer fires, shown again afterwards, the
timer event arriving late is a no-op. -/
theorem c6_witness :
    (delayRun initDelay
      [DelayEvent.visChange true, DelayEvent.visChange false, DelayEvent.timerFire]).popupShown
      = false :=
  (c6_delay_hidden_cancels [] [DelayEvent.visChange false, DelayEvent.timerFire]
    (by simp)).1

lemma scrollStep_good (threshold : ℚ) (s : ScrollTriggerState) (m : ScrollMeasure)
    (hs : scrollGood s) : scrollGood (scrollStep threshold s m) := by
  rcases hs with ⟨h1, h2, h3⟩ | ⟨h1, h2, h3⟩
  · unfold scrollStep
    rw [h1, h2]
    by_cases hm : scrollPercentage m ≥ threshold
    · simp only [hm, if_true, Bool.not_true, Bool.false_eq_true, if_false]
      right
      exact ⟨rfl, rfl, by rw [h3]⟩
    · simp only [hm, if_false, Bool.not_true, Bool.false_eq_true]
      left
      exact ⟨h1, h2, h3⟩
  · unfold scrollStep
    rw [h2]
    simp only [Bool.not_false, if_true]
    right
    exact ⟨h1, h2, h3⟩

lemma scrollRun_good (threshold : ℚ) (ms : List ScrollMeasure) (s : ScrollTriggerState)
    (hs : scrollGood s) : scrollGood (scrollRun threshold s ms) := by
  induction ms generalizing s with
  | nil => exact hs
  | cons m ms ih =>
    simp only [scrollRun, List.foldl_cons] at ih ⊢
    exact ih _ (scrollStep_good threshold s m hs)

lemma scrollRun_triggered_frozen (threshold : ℚ) (ms : List ScrollMeasure)
    (s : ScrollTriggerState) (h : s.triggered = true) : scrollRun threshold s ms = s := by
  induction ms with
  | nil => rfl
  | cons m ms ih =>
    simp only [scrollRun, List.foldl_cons] at ih ⊢
    have hstep : scrollStep threshold s m = s := by
      unfold scrollStep
      rw [h]
      split <;> simp
    rw [hstep]
    exact ih

/-- C7: a scroll trigger fires at most once per page load; a step changes
the fire count only from the untriggered attached state with the computed
scroll percentage at or above the threshold (exact equality counts as
met); and once triggered the handler never changes the state again. -/
theorem c7_scroll_fires_once (threshold : ℚ) (ms : List ScrollMeasure) :
    (scrollRun threshold initScroll ms).fireCount ≤ 1
    ∧ (∀ (s : ScrollTriggerState) (m : ScrollMeasure),
        (scrollStep threshold s m).fireCount ≠ s.fireCount →
          s.triggered = false ∧ s.listenerAttached = true
          ∧ scrollPercentage m ≥ threshold)
    ∧ (∀ m : ScrollMeasure, scrollPercentage m = threshold →
        (scrollStep threshold initScroll m).triggered = true
        ∧ (scrollStep threshold initScroll m).fireCount = 1)
    ∧ (∀ (s : ScrollTriggerState) (ms2 : List ScrollMeasure),
        s.triggered = true → scrollRun threshold s ms2 = s) := by
  refine ⟨?_, ?_, ?_, ?_⟩
  · have := scrollRun_good threshold ms initScroll (Or.inl ⟨rfl, rfl, rfl⟩)
    rcases this with ⟨_, _, h3⟩ | ⟨_, _, h3⟩ <;> omega
  · intro s m hne
    unfold scrollStep at hne
    by_cases h1 : s.listenerAttached
    · rw [h1] at hne
      simp only [Bool.not_true, Bool.false_eq_true, if_false] at hne
      by_cases h2 : s.triggered
      · rw [h2] at hne
        simp at hne
      · rw [Bool.not_eq_true] at h2
        rw [h2] at hne
        simp only [Bool.false_eq_true, if_false] at hne
        by_cases h3 : scrollPercentage m ≥ threshold
        · exact ⟨h2, h1, h3⟩
        · rw [if_neg h3] at hne
          simp at hne
    · rw [Bool.not_eq_true] at h1
      rw [h1] at hne
      simp at hne
  · intro m hm
    have hge : scrollPercentage m ≥ threshold := le_of_eq hm.symm
    constructor <;> simp [scrollStep, initScroll, hge]
  · intro s ms2 h
    exact scrollRun_triggered_frozen threshold ms2 s h

/-- C7 witness: exact boundary at 50% fires. -/
theorem c7_witness :
    (scrollStep 50 initScroll ⟨100, 300, 100⟩).triggered = true
    ∧ (scrollStep 50 initScroll ⟨100, 300, 100⟩).fireCount = 1 :=
  (c7_scroll_fires_once 50 []).2.2.1 ⟨100, 300, 100⟩ (by norm_num [scrollPercentage])

/-- C1 counterexample: submitting a valid email and then letting the
3-second success auto-dismiss run its course tracks one `conversion` AND
one `close` for the same popup instance — the auto-dismiss invokes the
shared `closePopup`, which tracks `close` unconditionally, so a conversion
does additionally emit a close event, contradicting the claim's "zero close
events". -/
theorem c1_counterexample :
    countEvent (rendererRun initialRenderer
      [RendererAction.submitForm "shopper@example.com", RendererAction.autoCloseFire]).tracked
      PEvent.conversion = 1
    ∧ countEvent (rendererRun initialRenderer
      [RendererAction.submitForm "shopper@example.com", RendererAction.autoCloseFire]).tracked
      PEvent.close = 1 := by decide

/-- C1 amended: closing without submitting records exactly one `close` and
zero `conversion` events; submitting a valid email records exactly one
`conversion`, after which the scheduled auto-dismiss runs the shared close
routine and records one additional `close`; an invalid or empty submission
records nothing. -/
theorem c1_amended_terminal_events (raw : String) (h : validateEmail (jsTrim raw) = true) :
    (countEvent (rendererRun initialRenderer [RendererAction.closeClick]).tracked
        PEvent.close = 1
      ∧ countEvent (rendererRun initialRenderer [RendererAction.closeClick]).tracked
          PEvent.conversion = 0)
    ∧ (countEvent (rendererRun initialRenderer
          [RendererAction.submitForm raw, RendererAction.autoCloseFire]).tracked
          PEvent.conversion = 1
      ∧ countEvent (rendererRun initialRenderer
          [RendererAction.submitForm raw, RendererAction.autoCloseFire]).tracked
          PEvent.close = 1)
    ∧ (∀ bad : String, validateEmail (jsTrim bad) = false →
        (rendererRun initialRenderer [RendererAction.submitForm bad]).tracked
          = [PEvent.view]) := by
  have hne : ¬ (jsTrim raw = "") := by
    intro he
    rw [he] at h
    exact absurd h (by decide)
  have hsub : rendererStep initialRenderer (RendererAction.submitForm raw)
      = ⟨[PEvent.view, PEvent.conversion], true, false, true, false, "", true, true⟩ := by
    simp [rendererStep, submitHandler, initialRenderer, hne, h]
  refine ⟨⟨by decide, by decide⟩, ?_, ?_⟩
  · constructor
    · show countEvent (rendererStep (rendererStep initialRenderer
        (RendererAction.submitForm raw)) RendererAction.autoCloseFire).tracked
        PEvent.conversion = 1
      rw [hsub]
      decide
    · show countEvent (rendererStep (rendererStep initialRenderer
        (RendererAction.submitForm raw)) RendererAction.autoCloseFire).tracked
        PEvent.close = 1
      rw [hsub]
      decide
  · intro bad hbad
    show (rendererStep initialRenderer (RendererAction.submitForm bad)).tracked = [PEvent.view]
    by_cases hb : jsTrim bad = "" <;>
      simp [rendererStep, submitHandler, initialRenderer, hb, hbad]

/-- C1 amended witness at a concrete valid email. -/
theorem c1_amended_witness :
    validateEmail (jsTrim "buyer@shop.example") = true
    ∧ countEvent (rendererRun initialRenderer
        [RendererAction.submitForm "buyer@shop.example", RendererAction.autoCloseFire]).tracked
        PEvent.conversion = 1 :=
  ⟨by decide, (c1_amended_terminal_events "buyer@shop.example" (by decide)).2.1.1⟩

/-- C2 counterexample: a request passing field validation whose popupId
matches no popup is answered with a generic 500 "Internal server error"
(the `Popup not found` error is swallowed by `trackPopupEvent` and rethrown
generically), not with a 404-equivalent not-found failure. -/
theorem c2_counterexample :
    (validateEventData fixValidData).valid = true
    ∧ findUniquePopup ⟨[], []⟩ fixPopupId = none
    ∧ (trackAction (fixReqOf fixValidData) [] 0 ⟨[], []⟩).2.2.status = 500
    ∧ ¬ (trackAction (fixReqOf fixValidData) [] 0 ⟨[], []⟩).2.2.status = 404
    ∧ (trackAction (fixReqOf fixValidData) [] 0 ⟨[], []⟩).2.2.error
        = some "Internal server error" := by decide

/-- C2 amended: on a validated request whose popupId references no existing
popup, the endpoint responds 500 with the generic internal-error body —
distinct from the 400 validation failure, but not a 404-equivalent
not-found response — and persists nothing. -/
theorem c2_amended_missing_popup_500 (req : TrackRequest) (d : EventData)
    (store : RateLimitStore) (now : Int) (db : Db)
    (hbody : req.body = some d)
    (hvalid : (validateEventData d).valid = true)
    (hallowed : (checkRateLimit store (getClientIP req.hdrs) now).2.allowed = true)
    (hmissing : findUniquePopup db
      (cleanToEventIn ((validateEventData d).cleanData.getD defaultClean)).popupId = none) :
    (trackAction req store now db).2.2.status = 500
    ∧ (trackAction req store now db).2.2.error = some "Internal server error"
    ∧ (trackAction req store now db).2.2.status ≠ 400
    ∧ (trackAction req store now db).2.2.status ≠ 404
    ∧ (trackAction req store now db).2.1 = db := by
  have htrack : trackPopupEvent db
      (cleanToEventIn ((validateEventData d).cleanData.getD defaultClean)) now
      = Except.error "Failed to track popup event" := by
    unfold trackPopupEvent trackPopupEventCore
    rw [hmissing]
  simp only [trackAction, hbody, hallowed, hvalid, htrack, Bool.not_true,
    Bool.false_eq_true, if_false, ite_false]
  simp

/-- C2 amended witness. -/
theorem c2_amended_witness :
    (trackAction (fixReqOf fixValidData) [] 5 ⟨[], []⟩).2.2.status = 500
    ∧ (trackAction (fixReqOf fixValidData) [] 5 ⟨[], []⟩).2.2.error
        = some "Internal server error" := by
  have h := c2_amended_missing_popup_500 (fixReqOf fixValidData) fixValidData [] 5 ⟨[], []⟩
    rfl (by decide) (by decide) (by decide)
  exact ⟨h.1, h.2.1⟩

/-- C9 counterexample: tracking a `view` event on the fixture popup (whose
`updatedAt` is 0) at server time 42 increments `views` by 1 but ALSO
refreshes the popup's `updatedAt` to 42 — the schema's `@updatedAt`
attribute makes every counter update touch it — so "all other popup fields
are left unchanged" is false. -/
theorem c9_counterexample :
    trackPopupEvent ⟨[fixPopup], []⟩ fixEventIn 42
      = Except.ok (⟨[{ fixPopup with views := fixPopup.views + 1, updatedAt := 42 }],
          [⟨fixPopupId, "view", "session123", some "UA", none, 42⟩]⟩,
          ⟨fixPopupId, "view", "session123", some "UA", none, 42⟩)
    ∧ fixPopup.updatedAt = 0
    ∧ ({ fixPopup with views := fixPopup.views + 1, updatedAt := 42 } : Popup).updatedAt
        ≠ fixPopup.updatedAt := by decide

/-- C9 amended: on input referencing an existing popup, `trackPopupEvent`
succeeds, appends exactly one analytics row carrying the event's fields and
the server-assigned timestamp, and updates popups so that only the
referenced popup changes, and only for a `view` or `conversion` event:
`views` is incremented by 1 exactly for a `view` event, `conversions` by 1
exactly for a `conversion` event, and the update also refreshes the popup's
`updatedAt` timestamp (Prisma `@updatedAt`); a `close` event is recorded as
a row and leaves every popup row untouched; all fields other than the
incremented counter and `updatedAt` are unchanged. -/
theorem c9_track_event_effects (db : Db) (data : AnalyticsEventIn) (now : Int) (p : Popup)
    (hp : findUniquePopup db data.popupId = some p) :
    ∃ db2 row, trackPopupEvent db data now = Except.ok (db2, row)
      ∧ row = ⟨data.popupId, data.event, data.sessionId, data.userAgent, data.referrer, now⟩
      ∧ db2.analytics = db.analytics
          ++ [⟨data.popupId, data.event, data.sessionId, data.userAgent, data.referrer, now⟩]
      ∧ db2.popups = db.popups.map (fun q =>
          if q.id = data.popupId ∧ (data.event = "view" ∨ data.event = "conversion") then
            withCounters (q.views + (if data.event = "view" then 1 else 0))
              (q.conversions + (if data.event = "conversion" then 1 else 0)) now q
          else q) := by
  unfold trackPopupEvent trackPopupEventCore
  rw [hp]
  by_cases hv : data.event = "view"
  · refine ⟨_, _, rfl, rfl, ?_, ?_⟩
    · simp [hv, bumpViews]
    · simp [hv, bumpViews]
      intro a _
      split <;> simp [withCounters]
  · by_cases hc : data.event = "conversion"
    · refine ⟨_, _, rfl, rfl, ?_, ?_⟩
      · simp [hv, hc, bumpConversions]
      · simp [hv, hc, bumpConversions]
        intro a _
        split <;> simp [withCounters]
    · refine ⟨_, _, rfl, rfl, ?_, ?_⟩
      · simp [hv, hc]
      · simp only [if_neg hv, if_neg hc]
        have hfn : ∀ q : Popup,
            (if q.id = data.popupId ∧ (data.event = "view" ∨ data.event = "conversion") then
              withCounters (q.views + 0) (q.conversions + 0) now q
            else q) = q := by
          intro q
          rw [if_neg (fun h => h.2.elim hv hc)]
        exact (List.map_id'' hfn db.popups).symm

/-- C9 amended witness: a `view` event on the fixture popup. -/
theorem c9_witness :
    ∃ db2 row, trackPopupEvent ⟨[fixPopup], []⟩ fixEventIn 42 = Except.ok (db2, row)
      ∧ db2.analytics = ([] : List AnalyticsRow)
          ++ [⟨fixPopupId, "view", "session123", some "UA", none, 42⟩] := by
  obtain ⟨db2, row, h1, _, h3, _⟩ :=
    c9_track_event_effects ⟨[fixPopup], []⟩ fixEventIn 42 fixPopup (by decide)
  exact ⟨db2, row, h1, h3⟩

lemma mem_storeDelete (s : RateLimitStore) (k : String) (p : String × RateLimitEntry)
    (h : p ∈ storeDelete s k) : p ∈ s :=
  List.mem_of_mem_filter h

lemma mem_storeSet (s : RateLimitStore) (k : String) (v : RateLimitEntry)
    (p : String × RateLimitEntry) (h : p ∈ storeSet s k v) : p ∈ s ∨ p = (k, v) := by
  unfold storeSet at h
  rcases List.mem_append.mp h with h | h
  · exact Or.inl (mem_storeDelete s k p h)
  · simp at h
    exact Or.inr h

lemma mem_expireKey (s : RateLimitStore) (k : String) (now : Int)
    (p : String × RateLimitEntry) (h : p ∈ expireKey s k now) : p ∈ s := by
  unfold expireKey at h
  split at h
  · split at h
    · exact mem_storeDelete s k p h
    · exact h
  · exact h

lemma storeGet_mem (s : RateLimitStore) (k : String) (e : RateLimitEntry)
    (h : storeGet s k = some e) : (k, e) ∈ s := by
  unfold storeGet at h
  rcases Option.map_eq_some'.mp h with ⟨p, hp, hpe⟩
  have hmem := List.mem_of_find?_eq_some hp
  have hkey : p.1 = k := by
    have := List.find?_some hp
    simpa using this
  have : p = (k, e) := by
    cases p
    simp only at hkey hpe
    rw [hkey, hpe]
  rw [← this]
  exact hmem

lemma checkRateLimit_preserves (s : RateLimitStore) (ip : String) (now : Int)
    (hs : ∀ p ∈ s, 0 ≤ p.2.count ∧ p.2.count ≤ 100) :
    (∀ p ∈ (checkRateLimit s ip now).1, 0 ≤ p.2.count ∧ p.2.count ≤ 100)
    ∧ 0 ≤ (checkRateLimit s ip now).2.remaining := by
  have hs1 : ∀ p ∈ expireKey s ("rate_limit:" ++ ip) now, 0 ≤ p.2.count ∧ p.2.count ≤ 100 :=
    fun p hp => hs p (mem_expireKey s _ now p hp)
  have hentry : 0 ≤ ((storeGet (expireKey s ("rate_limit:" ++ ip) now)
        ("rate_limit:" ++ ip)).getD ⟨0, now + RATE_LIMIT_WINDOW⟩).count
      ∧ ((storeGet (expireKey s ("rate_limit:" ++ ip) now)
        ("rate_limit:" ++ ip)).getD ⟨0, now + RATE_LIMIT_WINDOW⟩).count ≤ 100 := by
    cases hg : storeGet (expireKey s ("rate_limit:" ++ ip) now) ("rate_limit:" ++ ip) with
    | none => simp
    | some e =>
      simp only [Option.getD_some]
      exact hs1 (("rate_limit:" ++ ip), e) (storeGet_mem _ _ e hg)
  unfold checkRateLimit
  dsimp only
  split
  · exact ⟨hs1, by simp⟩
  · rename_i hlt
    rw [RATE_LIMIT_MAX_REQUESTS] at hlt
    push_neg at hlt
    constructor
    · intro p hp
      rcases mem_storeSet _ _ _ p hp with hp | hp
      · exact hs1 p hp
      · rw [hp]
        simp only
        omega
    · simp only [RATE_LIMIT_MAX_REQUESTS]
      omega

/-- C10: on every reachable rate-limit store, each stored count lies in
[0, 100] — `checkRateLimit` increments only counts strictly below the limit
— hence the `remaining` value it returns is non-negative, and the
`X-RateLimit-Remaining` header on every allowed endpoint response carries
that non-negative value. -/
theorem c10_remaining_nonneg (s : RateLimitStore) (hs : RLReachable s) :
    (∀ p ∈ s, 0 ≤ p.2.count ∧ p.2.count ≤ 100)
    ∧ (∀ (ip : String) (now : Int), 0 ≤ (checkRateLimit s ip now).2.remaining)
    ∧ (∀ (req : TrackRequest) (now : Int) (db : Db),
        (checkRateLimit s (getClientIP req.hdrs) now).2.allowed = true →
        headerVal (trackAction req s now db).2.2 "X-RateLimit-Remaining"
          = some (toString (checkRateLimit s (getClientIP req.hdrs) now).2.remaining)
        ∧ 0 ≤ (checkRateLimit s (getClientIP req.hdrs) now).2.remaining) := by
  have hbound : ∀ s2, RLReachable s2 → ∀ p ∈ s2, 0 ≤ p.2.count ∧ p.2.count ≤ 100 := by
    intro s2 hs2
    induction hs2 with
    | init => simp
    | request s3 ip now _ ih => exact (checkRateLimit_preserves s3 ip now ih).1
    | sweep s3 now _ ih => exact fun p hp => ih p (List.mem_of_mem_filter hp)
  refine ⟨hbound s hs, fun ip now => (checkRateLimit_preserves s ip now (hbound s hs)).2, ?_⟩
  intro req now db hallow
  refine ⟨?_, (checkRateLimit_preserves s _ now (hbound s hs)).2⟩
  simp only [trackAction, hallow, Bool.not_true, Bool.false_eq_true, if_false]
  cases hb : req.body with
  | none => simp [headerVal, List.find?]
  | some d =>
    by_cases hv : (validateEventData d).valid
    · simp only [hv, Bool.not_true, Bool.false_eq_true, if_false]
      cases htr : trackPopupEvent db
          (cleanToEventIn ((validateEventData d).cleanData.getD defaultClean)) now with
      | ok r =>
        cases r
        simp [headerVal, List.find?]
      | error e => simp [headerVal, List.find?]
    · simp only [Bool.not_eq_true] at hv
      simp [hv, headerVal, List.find?]

/-- C10 witness: the empty store is reachable; a first request is answered
with a non-negative remaining quota. -/
theorem c10_witness :
    0 ≤ (checkRateLimit [] "client" 0).2.remaining
    ∧ headerVal (trackAction ⟨none, ⟨none, none, none⟩, none⟩ [] 0 ⟨[], []⟩).2.2
        "X-RateLimit-Remaining"
        = some (toString (checkRateLimit []
            (getClientIP (⟨none, ⟨none, none, none⟩, none⟩ : TrackRequest).hdrs) 0).2.remaining) := by
  have h := c10_remaining_nonneg [] RLReachable.init
  exact ⟨h.2.1 "client" 0,
    (h.2.2 ⟨none, ⟨none, none, none⟩, none⟩ 0 ⟨[], []⟩ (by decide)).1⟩


lemma chunk_nil (c : Bool) (m : String) :
    ((if c = true then [m] else ([] : List String)) = []) ↔ c = false := by
  cases c <;> simp

lemma chunk2_nil (c1 c2 : Bool) (m1 m2 : String) :
    ((if c1 = true then [m1] else if c2 = true then [m2] else ([] : List String)) = [])
      ↔ (c1 = false ∧ c2 = false) := by
  cases c1 <;> cases c2 <;> simp

lemma chunk_mem (c : Bool) (m x : String) :
    (x ∈ (if c = true then [m] else ([] : List String))) ↔ (c = true ∧ x = m) := by
  cases c <;> simp

lemma chunk2_mem (c1 c2 : Bool) (m1 m2 x : String) :
    (x ∈ (if c1 = true then [m1] else if c2 = true then [m2] else ([] : List String)))
      ↔ ((c1 = true ∧ x = m1) ∨ (c1 = false ∧ c2 = true ∧ x = m2)) := by
  cases c1 <;> cases c2 <;> simp

lemma validationErrors_nil_iff (d : EventData) :
    validationErrors d = [] ↔
      (JValue.truthy d.popupId = true ∧ isStringV d.popupId = true
        ∧ matchesCuidPattern (strValOf d.popupId) = true)
      ∧ (JValue.truthy d.event = true ∧ isStringV d.event = true
          ∧ eventKinds.contains (strValOf d.event) = true)
      ∧ (JValue.truthy d.sessionId = true ∧ isStringV d.sessionId = true
          ∧ 10 ≤ (strValOf d.sessionId).length ∧ (strValOf d.sessionId).length ≤ 100)
      ∧ (JValue.truthy d.userAgent = true → isStringV d.userAgent = true)
      ∧ (JValue.truthy d.referrer = true → isStringV d.referrer = true) := by
  unfold validationErrors
  simp only [List.append_eq_nil, chunk_nil, chunk2_nil]
  simp only [Bool.eq_false_iff, ne_eq, Bool.or_eq_true, Bool.and_eq_true,
    Bool.not_eq_true', decide_eq_true_eq]
  push_neg
  constructor <;> intro h <;> tauto


lemma jsTake_length_le (s : String) (n : Nat) : (jsTake s n).length ≤ n := by
  have h : (jsTake s n).length = (s.data.take n).length := rfl
  rw [h, List.length_take]
  omega

lemma jsTruncOpt_length (v : Option JValue) (s : String) (h : jsTruncOpt v = some s) :
    s.length ≤ 500 := by
  unfold jsTruncOpt at h
  cases hv : jsOptToString v with
  | none =>
    rw [hv] at h
    simp at h
  | some s0 =>
    rw [hv] at h
    simp only [Option.map_some'] at h
    by_cases he : jsTake (jsTrim s0) 500 = ""
    · rw [if_pos he] at h
      cases h
    · rw [if_neg he] at h
      cases h
      exact jsTake_length_le (jsTrim s0) 500

/-- C8 counterexample: `userAgent: 0` is present and not a string, so the
claim demands a 400, but the code's truthiness guard skips falsy
non-strings: validation passes and the endpoint answers 200. -/
theorem c8_counterexample :
    fixUaNumData.userAgent = some (JValue.num 0)
    ∧ isStringV fixUaNumData.userAgent = false
    ∧ (validateEventData fixUaNumData).valid = true
    ∧ (trackAction (fixReqOf fixUaNumData) [] 0 ⟨[fixPopup], []⟩).2.2.status = 200 := by
  decide

/-- C8 amended: the endpoint responds 400 with the itemized errors list
exactly when validation fails, which happens iff popupId is not a truthy
string matching the 20-30 lowercase-alphanumeric pattern, or event is not a
truthy string among view/conversion/close, or sessionId is not a truthy
string of length 10-100, or userAgent/referrer carries a truthy value that
is not a string (falsy non-string values such as `0` or `false` are
accepted); each failing field is named by its message; on accepted input
userAgent and referrer are truncated to at most 500 characters. -/
theorem c8_amended_validation (d : EventData) :
    ((validateEventData d).valid = true ↔
      (JValue.truthy d.popupId = true ∧ isStringV d.popupId = true
        ∧ matchesCuidPattern (strValOf d.popupId) = true)
      ∧ (JValue.truthy d.event = true ∧ isStringV d.event = true
          ∧ eventKinds.contains (strValOf d.event) = true)
      ∧ (JValue.truthy d.sessionId = true ∧ isStringV d.sessionId = true
          ∧ 10 ≤ (strValOf d.sessionId).length ∧ (strValOf d.sessionId).length ≤ 100)
      ∧ (JValue.truthy d.userAgent = true → isStringV d.userAgent = true)
      ∧ (JValue.truthy d.referrer = true → isStringV d.referrer = true))
    ∧ (∀ (req : TrackRequest) (store : RateLimitStore) (now : Int) (db : Db),
        req.body = some d →
        (checkRateLimit store (getClientIP req.hdrs) now).2.allowed = true →
        (validateEventData d).valid = false →
        (trackAction req store now db).2.2.status = 400
        ∧ (trackAction req store now db).2.2.errors = validationErrors d
        ∧ validationErrors d ≠ [])
    ∧ ("popupId is required and must be a string" ∈ (validateEventData d).errors
        ↔ ¬(JValue.truthy d.popupId = true ∧ isStringV d.popupId = true))
    ∧ ("event is required and must be a string" ∈ (validateEventData d).errors
        ↔ ¬(JValue.truthy d.event = true ∧ isStringV d.event = true))
    ∧ ("event must be one of: view, conversion, close" ∈ (validateEventData d).errors
        ↔ (JValue.truthy d.event = true ∧ isStringV d.event = true
           ∧ eventKinds.contains (strValOf d.event) = false))
    ∧ ("sessionId is required and must be a string" ∈ (validateEventData d).errors
        ↔ ¬(JValue.truthy d.sessionId = true ∧ isStringV d.sessionId = true))
    ∧ ("popupId format is invalid" ∈ (validateEventData d).errors
        ↔ (JValue.truthy d.popupId = true ∧ isStringV d.popupId = true
           ∧ matchesCuidPattern (strValOf d.popupId) = false))
    ∧ ("sessionId length must be between 10 and 100 characters" ∈ (validateEventData d).errors
        ↔ (JValue.truthy d.sessionId = true ∧ isStringV d.sessionId = true
           ∧ ((strValOf d.sessionId).length < 10 ∨ 100 < (strValOf d.sessionId).length)))
    ∧ ("userAgent must be a string" ∈ (validateEventData d).errors
        ↔ (JValue.truthy d.userAgent = true ∧ isStringV d.userAgent = false))
    ∧ ("referrer must be a string" ∈ (validateEventData d).errors
        ↔ (JValue.truthy d.referrer = true ∧ isStringV d.referrer = false))
    ∧ ((validateEventData d).valid = true →
        ∀ c, (validateEventData d).cleanData = some c →
        (∀ u, c.userAgent = some u → u.length ≤ 500)
        ∧ (∀ r, c.referrer = some r → r.length ≤ 500)) := by
  refine ⟨?_, ?_, ?_, ?_, ?_, ?_, ?_, ?_, ?_, ?_, ?_⟩
  · show (validationErrors d).isEmpty = true ↔ _
    rw [List.isEmpty_iff]
    exact validationErrors_nil_iff d
  · intro req store now db hbody hallow hinvalid
    simp only [trackAction, hbody, hallow, Bool.not_true, Bool.false_eq_true, if_false,
      hinvalid, Bool.not_false, if_true]
    refine ⟨trivial, rfl, ?_⟩
    intro hn
    have h2 : (validationErrors d).isEmpty = false := hinvalid
    rw [hn] at h2
    cases h2
  · show _ ∈ validationErrors d ↔ _
    unfold validationErrors
    cases hpt : JValue.truthy d.popupId <;> cases hps : isStringV d.popupId <;>
      simp [List.mem_append, chunk_mem, chunk2_mem, hpt, hps] <;> (split <;> simp)
  · show _ ∈ validationErrors d ↔ _
    unfold validationErrors
    cases het : JValue.truthy d.event <;> cases hes : isStringV d.event <;>
      simp [List.mem_append, chunk_mem, chunk2_mem, het, hes]
  · show _ ∈ validationErrors d ↔ _
    unfold validationErrors
    cases het : JValue.truthy d.event <;> cases hes : isStringV d.event <;>
      cases hek : eventKinds.contains (strValOf d.event) <;>
      simp [List.mem_append, chunk_mem, chunk2_mem, het, hes, hek]
  · show _ ∈ validationErrors d ↔ _
    unfold validationErrors
    cases hst : JValue.truthy d.sessionId <;> cases hss : isStringV d.sessionId <;>
      simp [List.mem_append, chunk_mem, chunk2_mem, hst, hss] <;> (split <;> simp)
  · show _ ∈ validationErrors d ↔ _
    unfold validationErrors
    cases hpt : JValue.truthy d.popupId <;> cases hps : isStringV d.popupId <;>
      cases hpm : matchesCuidPattern (strValOf d.popupId) <;>
      simp [List.mem_append, chunk_mem, chunk2_mem, hpt, hps, hpm] <;> (split <;> simp)
  · show _ ∈ validationErrors d ↔ _
    unfold validationErrors
    cases hst : JValue.truthy d.sessionId <;> cases hss : isStringV d.sessionId <;>
      simp [List.mem_append, chunk_mem, chunk2_mem, hst, hss] <;> (split <;> simp)
  · show _ ∈ validationErrors d ↔ _
    unfold validationErrors
    cases hut : JValue.truthy d.userAgent <;> cases hus : isStringV d.userAgent <;>
      simp [List.mem_append, chunk_mem, chunk2_mem, hut, hus] <;> (split <;> simp)
  · show _ ∈ validationErrors d ↔ _
    unfold validationErrors
    cases hrt : JValue.truthy d.referrer <;> cases hrs : isStringV d.referrer <;>
      simp [List.mem_append, chunk_mem, chunk2_mem, hrt, hrs] <;> (split <;> simp)
  · intro hvalid c hc
    have hval2 : (validationErrors d).isEmpty = true := hvalid
    have hc2 : (if (validationErrors d).isEmpty = true then some (makeCleanData d)
        else none) = some c := hc
    rw [if_pos hval2] at hc2
    cases hc2
    exact ⟨fun u hu => jsTruncOpt_length d.userAgent u hu,
      fun r hr => jsTruncOpt_length d.referrer r hr⟩

/-- C8 amended witness: a too-short sessionId yields a 400 with a non-empty
errors list. -/
theorem c8_amended_witness :
    (trackAction (fixReqOf fixShortSessData) [] 0 ⟨[], []⟩).2.2.status = 400
    ∧ (trackAction (fixReqOf fixShortSessData) [] 0 ⟨[], []⟩).2.2.errors ≠ [] := by
  have h := (c8_amended_validation fixShortSessData).2.1 (fixReqOf fixShortSessData) [] 0
    ⟨[], []⟩ rfl (by decide) (by decide)
  refine ⟨h.1, ?_⟩
  rw [h.2.1]
  exact h.2.2

end SmartPop
